import Mathlib

/-!
Verification development for the maya-replicate-houdini-tool repository
(src/mayareplicatehoudinitool/lib.py and app.py).

The program is a thin layer over the Maya cmds and mel host API: every
library operation is a sequence of host queries and scene edits.  We embed
it shallowly:

* A `Host` record holds the response of every host query the code makes.
  Queries that Maya answers with None when nothing matches (listConnections,
  listRelatives, particle query) are modelled as `Option (List String)`:
  the source itself documents this convention with its repeated
  `cmds.listConnections(...) or []` idiom (lib.py lines 37, 243, 307).
* Each Python function becomes a Lean function from its arguments and the
  `Host` to an `Except PyErr` result, paired where relevant with the list
  of scene edits (`SceneOp`) it performs, in order.
* Python dictionaries are modelled as insertion-ordered association lists
  and Python sets as lists up to `dedup`; CPython 2 iterates both
  deterministically for a fixed construction, which is all the claims use.
* Python error semantics is kept: iterating None or testing membership in
  None raises TypeError, indexing an empty list raises IndexError, a failed
  `assert` raises AssertionError, explicit `raise` statements keep their
  exception class.  Message strings elide the quote characters of the
  originals.
-/

/-- The Python exception classes that the embedded code can raise. -/
inductive PyErr where
  | assertionError (msg : String)
  | valueError (msg : String)
  | runtimeError (msg : String)
  | typeError (msg : String)
  | indexError (msg : String)
deriving DecidableEq, Repr

/-- A scene edit performed through the Maya cmds or mel API.  Query calls
are not edits and are not recorded; `melEval` records the exact command
string handed to `mel.eval`. -/
inductive SceneOp where
  | createNode (ty : String)
  | group (name : String)
  | duplicate (node newName : String)
  | connectAttr (src dst : String) (force : Bool)
  | disconnectAttr (src dst : String)
  | selectClear
  | select (node : String)
  | parent (child par : String)
  | particleInstancer (system name : String) (objects : List String)
      (kwargs : List (String × String))
  | checkBoxGrp (box : String)
  | setAttr (attr : String) (v : Int)
  | melEval (cmd : String)
deriving DecidableEq, Repr

/-- The host oracle: one field per host-API query site of lib.py and
app.py, giving the response of that query for the current scene.  Fields
named after the call they answer. -/
structure Host where
  /-- cmds.nodeType(node) -/
  nodeType : String → String
  /-- cmds.listConnections(node, destination=True, type="mesh") -/
  meshConnections : String → Option (List String)
  /-- the same query made a second time after houdiniEngine_syncAsset
  (update_asset line 317) -/
  meshConnectionsAfter : String → Option (List String)
  /-- cmds.listConnections(node, destination=True, type="nParticle",
  shapes=True) (get_particle_system line 124) -/
  nparticleConnections : String → Option (List String)
  /-- cmds.listConnections(node, destination=True, type="nParticle",
  exactType=True, shapes=True) (maintain_connections line 23) -/
  nparticleConnectionsExact : String → Option (List String)
  /-- cmds.listConnections(node, destination=True, type="instancer") -/
  instancerConnections : String → Option (List String)
  /-- cmds.listRelatives(node, allDescendents=True) -/
  allDescendents : String → Option (List String)
  /-- cmds.listRelatives(node, allDescendents=True, type="nParticle") -/
  nparticleDescendents : String → Option (List String)
  /-- cmds.listConnections(inst ++ ".inputHierarchy") -/
  inputHierarchy : String → Option (List String)
  /-- cmds.listConnections(attr, connections=True, plugs=True): the flat
  list [myPlug, otherPlug, myPlug, otherPlug, ...] -/
  inputHierarchyPairs : String → Option (List String)
  /-- cmds.particle(node, query=True, dynamicAttrList=True) -/
  particleAttrs : String → Option (List String)
  /-- cmds.listConnections(attr, plugs=True) on a cacheArrayData plug -/
  cacheArrayConnections : String → Option (List String)
  /-- cmds.ls(type="nucleus"); ls answers with a list, empty when none -/
  lsNucleus : List String
  /-- cmds.ls(type="houdiniAsset") -/
  lsHoudiniAsset : List String
  /-- cmds.ls(selection=True, type="houdiniAsset") -/
  lsSelHoudiniAsset : List String
  /-- avalon.maya.lib.unique_name(name, format, suffix) -/
  uniqueName : String → String
  /-- the node name returned by cmds.group(empty=True, name=n) -/
  groupResult : String → String
  /-- the node name returned by cmds.createNode("nucleus") -/
  createdNucleusName : String
  /-- the list returned by cmds.duplicate(node, name=newName) -/
  duplicateResult : String → String → List String
  /-- the node name returned by cmds.particleInstancer(..., name=n) -/
  instancerResult : String → String
  /-- whether cmds.parent(child, par) raises RuntimeError (replicate
  line 279-282 catches it) -/
  parentFails : String → String → Bool

/-! ### Python iteration and membership helpers -/

/-- Python list comprehension `[i for i in xs if i in ys]` where both xs
and ys came from queries that may be None.  Iterating None raises a
TypeError; testing `i in None` raises a TypeError, but only when the
comprehension actually reaches a membership test. -/
def pyFilterIn (xs ys : Option (List String)) : Except PyErr (List String) :=
  match xs with
  | none => .error (.typeError "NoneType object is not iterable")
  | some [] => .ok []
  | some l =>
    match ys with
    | none => .error (.typeError "argument of type NoneType is not iterable")
    | some d => .ok (l.filter (fun i => d.contains i))

/-- Python list comprehension `[i for i in xs if i not in ys]` for a list
xs already known to be a list (after an `or []`). -/
def pyFilterNotInL (xs : List String) (ys : Option (List String)) :
    Except PyErr (List String) :=
  match xs with
  | [] => .ok []
  | l =>
    match ys with
    | none => .error (.typeError "argument of type NoneType is not iterable")
    | some d => .ok (l.filter (fun i => !d.contains i))

/-- Python list comprehension `[i for i in xs if i not in ys]` where xs
itself may be None. -/
def pyFilterNotIn (xs ys : Option (List String)) : Except PyErr (List String) :=
  match xs with
  | none => .error (.typeError "NoneType object is not iterable")
  | some l => pyFilterNotInL l ys

/-! ### lib.get_houdini_assets (lib.py lines 62-76) -/

/-- Embedding of lib.get_houdini_assets: two cmds.ls query sites selected
by the flag. -/
def get_houdini_assets (h : Host) (selected : Bool) : List String :=
  if selected then h.lsSelHoudiniAsset else h.lsHoudiniAsset

/-- Modelled from the spec words for the refinement claim C5: the raw
host query result itself, with no filtering, ordering or transformation
applied. -/
def get_houdini_assets_spec (h : Host) (selected : Bool) : List String :=
  if selected then h.lsSelHoudiniAsset else h.lsHoudiniAsset

/-! ### lib.get_particle_system (lib.py lines 114-143) -/

/-- Embedding of lib.get_particle_system.  The two queries are filtered
against each other (line 134), deduplicated through `set` (line 138), and
the singleton is asserted (line 139). -/
def get_particle_system (h : Host) (houdini_asset : String) :
    Except PyErr String :=
  match pyFilterIn (h.nparticleConnections houdini_asset)
      (h.nparticleDescendents houdini_asset) with
  | .error e => .error e
  | .ok connections =>
    match connections.dedup with
    | [ps] => .ok ps
    | l => .error (.assertionError
        ("This tool does not support multiple nParticles, got " ++
          toString l.length ++ " nParticles"))

/-! ### lib.get_shape_transforms (lib.py lines 97-111) -/

/-- Core of lib.get_shape_transforms, parametrised by the mesh-connection
query so that the second call inside update_asset (after the sync) can use
its own oracle field.  The guard is a raise of ValueError (line 108), and
`set(shapes)` with shapes None raises TypeError. -/
def get_shape_transforms_with (nt : String → String)
    (meshConns : String → Option (List String)) (houdini_asset : String) :
    Except PyErr (List String) :=
  if nt houdini_asset ≠ "houdiniAsset" then
    .error (.valueError "Wrong node type")
  else
    match meshConns houdini_asset with
    | none => .error (.typeError "NoneType object is not iterable")
    | some shapes => .ok shapes.dedup

/-- Embedding of lib.get_shape_transforms. -/
def get_shape_transforms (h : Host) (houdini_asset : String) :
    Except PyErr (List String) :=
  get_shape_transforms_with h.nodeType h.meshConnections houdini_asset

/-! ### lib.get_particle_attributes, lib.get_instancers,
lib.get_input_hierarchy (lib.py lines 146-188) -/

/-- Embedding of lib.get_particle_attributes: the raw particle query. -/
def get_particle_attributes (h : Host) (node : String) :
    Option (List String) :=
  h.particleAttrs node

/-- Embedding of lib.get_instancers: the raw listConnections query. -/
def get_instancers (h : Host) (houdini_asset : String) :
    Option (List String) :=
  h.instancerConnections houdini_asset

/-- Embedding of lib.get_input_hierarchy.  The guard is a raise of
ValueError (line 186); the query result is returned as is, None included. -/
def get_input_hierarchy (h : Host) (instancer : String) :
    Except PyErr (Option (List String)) :=
  if h.nodeType instancer ≠ "instancer" then
    .error (.valueError "Given node is not of type instancer")
  else
    .ok (h.inputHierarchy instancer)

/-! ### Claim C5 -/

/-- Claim C5: get_houdini_assets(selected) returns exactly the host query
result, cmds.ls(selection=True, type="houdiniAsset") when selected is
true and cmds.ls(type="houdiniAsset") otherwise, with no additional
filtering, ordering, or transformation. -/
theorem get_houdini_assets_refines_host_query (h : Host) (selected : Bool) :
    get_houdini_assets h selected = get_houdini_assets_spec h selected :=
  rfl

/-! ### The asset mapping data model (map_houdini_asset, lib.py 79-94)

Python value: {asset: {"particle_system": {particle_node: attributes},
"hierarchy": [...]}} with dictionaries as insertion-ordered association
lists.  The particle attribute list may be None (cmds.particle can answer
None), and replicate reads both keys with .get, so both are Option. -/

/-- The per-asset dictionary stored in an asset mapping. -/
structure AssetData where
  /-- mapping.get("particle_system", None): a dict particle node to its
  dynamic attribute list -/
  particle_system : Option (List (String × Option (List String)))
  /-- mapping.get("hierarchy", []) -/
  hierarchy : Option (List String)
deriving DecidableEq, Repr

/-- An asset mapping: the dict asset name to AssetData, insertion ordered. -/
abbrev AssetMapping := List (String × AssetData)

/-- The hierarchy accumulation loop of map_houdini_asset (lines 85-86):
`for inst in instancers: hierarchy.update(get_input_hierarchy(inst))`.
get_input_hierarchy can raise ValueError; set.update(None) raises
TypeError. -/
def collectHierarchy (h : Host) : List String → List String →
    Except PyErr (List String)
  | [], acc => .ok acc
  | inst :: rest, acc =>
    match get_input_hierarchy h inst with
    | .error e => .error e
    | .ok none => .error (.typeError "NoneType object is not iterable")
    | .ok (some l) => collectHierarchy h rest (acc ++ l)

/-- Embedding of lib.map_houdini_asset.  Iterating a None instancer list
raises TypeError (line 85); the hierarchy set becomes an ordered
deduplicated list. -/
def map_houdini_asset (h : Host) (asset : String) :
    Except PyErr AssetMapping :=
  match h.instancerConnections asset with
  | none => .error (.typeError "NoneType object is not iterable")
  | some instancers =>
    match collectHierarchy h instancers [] with
    | .error e => .error e
    | .ok hier =>
      match get_particle_system h asset with
      | .error e => .error e
      | .ok particle_node =>
        .ok [(asset,
          { particle_system := some [(particle_node, h.particleAttrs particle_node)],
            hierarchy := some hier.dedup })]

/-! ### lib.replicate (lib.py lines 191-284) -/

/-- Python format "{:03d}": zero-pad to width three. -/
def fmt3 (i : Nat) : String :=
  if i < 10 then "00" ++ toString i
  else if i < 100 then "0" ++ toString i
  else toString i

/-- The nucleus chosen by the pre-flight check of replicate (lines
217-221): the first existing nucleus, else the freshly created one. -/
def nucleusOf (h : Host) : String :=
  match h.lsNucleus with
  | [] => h.createdNucleusName
  | n :: _ => n

/-- The creation edit of the pre-flight check: a nucleus node is created
exactly when the scene query found none (Python `if not nuclea`). -/
def preOpsOf (h : Host) : List SceneOp :=
  match h.lsNucleus with
  | [] => [SceneOp.createNode "nucleus"]
  | _ :: _ => []

/-- One iteration of the replicate loop (lines 232-282) for entry number
i: raises RuntimeError when particle_system is missing (line 236),
IndexError when the particle dict is empty (keys()[0], line 239), asserts
the single cacheArrayData connection (line 244) and the single duplicate
(line 249), and otherwise emits the scene edits of the iteration in
order.  The duplicate edit itself precedes the duplicate-count assert, so
it is part of the trace even when that assert fires. -/
def replicateEntry (h : Host) (name nucleus asset_group : String) (i : Nat)
    (asset : String) (mapping : AssetData)
    (kwargs : List (String × String)) :
    Except PyErr Unit × List SceneOp :=
  match mapping.particle_system with
  | none =>
    (.error (.runtimeError ("Incomplete mapping of asset " ++ asset ++
      ", missing particle_system")), [])
  | some ps_dict =>
    match ps_dict with
    | [] => (.error (.indexError "list index out of range"), [])
    | (particle_system, _) :: _ =>
      match (h.cacheArrayConnections
          (particle_system ++ ".cacheArrayData")).getD [] with
      | [data_attr] =>
        let new_name := name ++ fmt3 i ++ "_PART"
        match h.duplicateResult particle_system new_name with
        | [new_system] =>
          let inst_name := name ++ fmt3 i ++ "_INST"
          let new_instancer := h.instancerResult inst_name
          (.ok (),
            [SceneOp.duplicate particle_system new_name,
             SceneOp.connectAttr data_attr (new_system ++ ".cacheArrayData")
               false,
             SceneOp.selectClear,
             SceneOp.select new_system,
             SceneOp.melEval ("assignNSolver " ++ nucleus),
             SceneOp.parent new_system asset_group,
             SceneOp.particleInstancer new_system inst_name
               (mapping.hierarchy.getD []) kwargs,
             SceneOp.checkBoxGrp "AEdisplayAllTypes",
             SceneOp.setAttr (new_instancer ++ ".rotationAngleUnits") 1,
             SceneOp.setAttr (new_instancer ++ ".rotationOrder") 0] ++
            (if h.parentFails new_instancer asset_group then []
             else [SceneOp.parent new_instancer asset_group]))
        | other =>
          (.error (.assertionError ("This is a bug, duplicated " ++
            toString other.length ++ " nParticle nodes")),
           [SceneOp.duplicate particle_system new_name])
      | _ => (.error (.assertionError "This is a bug"), [])

/-- The enumerated loop of replicate over the asset mapping entries,
starting at index i; the trace of a failing iteration ends the run but is
kept. -/
def replicateLoop (h : Host) (name nucleus asset_group : String)
    (kwargs : List (String × String)) :
    AssetMapping → Nat → Except PyErr Unit × List SceneOp
  | [], _ => (.ok (), [])
  | (asset, mapping) :: rest, i =>
    match replicateEntry h name nucleus asset_group i asset mapping kwargs with
    | (.ok (), ops) =>
      match replicateLoop h name nucleus asset_group kwargs rest (i + 1) with
      | (r, more) => (r, ops ++ more)
    | (.error e, ops) => (.error e, ops)

/-- Embedding of lib.replicate.  A None or empty attribute_mapping is
normalised to the empty dict (lines 213-214); the pre-flight check picks
or creates the nucleus (lines 217-221); the group is created with the
avalon unique name plus suffix (lines 224-231); then the loop runs. -/
def replicate (h : Host) (name0 : String) (asset_mapping : AssetMapping)
    (attribute_mapping : Option (List (String × String))) :
    Except PyErr Bool × List SceneOp :=
  let kwargs := (attribute_mapping.getD [])
  let preOps := preOpsOf h
  let name := name0 ++ "_"
  let unique_name := h.uniqueName name ++ "_GRP"
  let asset_group := h.groupResult unique_name
  match replicateLoop h name (nucleusOf h) asset_group kwargs
      asset_mapping 0 with
  | (.ok (), ops) =>
    (.ok true, preOps ++ [SceneOp.group unique_name] ++ ops)
  | (.error e, ops) =>
    (.error e, preOps ++ [SceneOp.group unique_name] ++ ops)

/-! ### lib.maintain_connections (lib.py lines 11-59) -/

/-- The pairing comprehension of maintain_connections (lines 48-49):
`[[hierarchy[i + 1], hierarchy[i]] for i in range(0, cons, 2)]` over the
flat connections-and-plugs list.  An odd-length list makes hierarchy[i+1]
an out-of-range index; Python evaluates the whole comprehension before
extend, so nothing is kept from a failing one. -/
def pairUp : List String → Except PyErr (List (String × String))
  | [] => .ok []
  | [_] => .error (.indexError "list index out of range")
  | a :: b :: rest =>
    match pairUp rest with
    | .error e => .error e
    | .ok l => .ok ((b, a) :: l)

/-- The inner instancer loop of maintain_connections (lines 42-49) over
one nParticle: accumulate the plug pairs of every instancer, keeping the
pairs gathered before a failure (the Python list instance_connections is
mutated incrementally per instancer).  len(None) raises TypeError
(line 47). -/
def collectInstancers (h : Host) : List String →
    Except PyErr Unit × List (String × String)
  | [] => (.ok (), [])
  | inst :: rest =>
    match h.inputHierarchyPairs (inst ++ ".inputHierarchy") with
    | none => (.error (.typeError "object of type NoneType has no len"), [])
    | some hier =>
      match pairUp hier with
      | .error e => (.error e, [])
      | .ok pairs =>
        match collectInstancers h rest with
        | (r, more) => (r, pairs ++ more)

/-- The outer nParticle loop of maintain_connections (lines 32-49); an
nParticle without instancers is skipped via the `or []` of line 37. -/
def collectLoop (h : Host) : List String →
    Except PyErr Unit × List (String × String)
  | [] => (.ok (), [])
  | np :: rest =>
    match collectInstancers h ((h.instancerConnections np).getD []) with
    | (.ok (), pairs) =>
      match collectLoop h rest with
      | (r, more) => (r, pairs ++ more)
    | (.error e, pairs) => (.error e, pairs)

/-- The collection phase of maintain_connections (lines 22-49): the
instance_connections list as accumulated when control reaches the break
loop, or as accumulated at the point of a failure inside the try block.
Each pair is (source plug, destination plug), matching
[hierarchy[i + 1], hierarchy[i]]. -/
def collectConnections (h : Host) (asset : String) :
    Except PyErr Unit × List (String × String) :=
  match pyFilterNotIn (h.nparticleConnectionsExact asset)
      (h.allDescendents asset) with
  | .error e => (.error e, [])
  | .ok non_descendents => collectLoop h non_descendents

/-- The full trace of the maintain_connections context manager around a
body that performed bodyOps and finished with bodyErr (none = returned,
some e = raised e).  A failure inside the try block before the yield
reaches the finally clause with the pairs collected so far and no
disconnect performed; otherwise the trace is disconnect all, body,
reconnect all (with force), and a body exception propagates after the
finally clause has reconnected. -/
def maintainConnectionsOps (h : Host) (asset : String)
    (bodyOps : List SceneOp) (bodyErr : Option PyErr) :
    Except PyErr Unit × List SceneOp :=
  match collectConnections h asset with
  | (.error e, partialL) =>
    (.error e, partialL.map (fun c => SceneOp.connectAttr c.1 c.2 true))
  | (.ok (), l) =>
    let disc := l.map (fun c => SceneOp.disconnectAttr c.1 c.2)
    let reconn := l.map (fun c => SceneOp.connectAttr c.1 c.2 true)
    match bodyErr with
    | none => (.ok (), disc ++ bodyOps ++ reconn)
    | some e => (.error e, disc ++ bodyOps ++ reconn)

/-! ### Connection-set semantics of scene edits

For claim C8 we interpret a trace over the scene state that matters
there: the set of attribute connections, a connection being a
(source plug, destination plug) pair.  connectAttr adds the pair (force
replaces an input, and re-making an existing pair leaves the set
unchanged), disconnectAttr removes it, every other edit leaves
connections alone. -/

/-- Add a connection if absent. -/
def connIns (s : List (String × String)) (c : String × String) :
    List (String × String) :=
  if c ∈ s then s else s ++ [c]

/-- Remove a connection. -/
def connDel (s : List (String × String)) (c : String × String) :
    List (String × String) :=
  s.filter (fun x => x ≠ c)

/-- Effect of one scene edit on the connection set. -/
def applyOp (s : List (String × String)) : SceneOp → List (String × String)
  | .connectAttr a b _ => connIns s (a, b)
  | .disconnectAttr a b => connDel s (a, b)
  | _ => s

/-- Effect of a trace of scene edits on the connection set. -/
def applyOps (s : List (String × String)) : List SceneOp →
    List (String × String)
  | [] => s
  | op :: rest => applyOps (applyOp s op) rest

/-! ### lib.update_asset (lib.py lines 287-325) -/

/-- The reconnection loop of update_asset (lines 320-323): for the i-th
new shape (counting from 1) connect shape.matrix into
instancer.inputHierarchy[count + i]. -/
def updateConnectOps (instancer : String) (count : Nat)
    (new_shapes : List String) : List SceneOp :=
  (new_shapes.enumFrom 1).map (fun si =>
    SceneOp.connectAttr (si.2 ++ ".matrix")
      (instancer ++ ".inputHierarchy[" ++ toString (count + si.1) ++ "]")
      false)

/-- Embedding of lib.update_asset.  transforms[0] on an empty transform
set raises IndexError (line 305); the descendant filter can raise
TypeError (line 308); the instancer count is asserted (line 310); the
sync runs under maintain_connections with the mel sync call as its body;
then the new shapes (second query minus first) are connected. -/
def update_asset (h : Host) (asset : String) :
    Except PyErr Bool × List SceneOp :=
  match get_shape_transforms h asset with
  | .error e => (.error e, [])
  | .ok before_update =>
    match before_update with
    | [] => (.error (.indexError "list index out of range"), [])
    | t0 :: _ =>
      match pyFilterNotInL ((h.instancerConnections t0).getD [])
          (h.allDescendents asset) with
      | .error e => (.error e, [])
      | .ok instancers =>
        match instancers with
        | [] => (.error (.assertionError "This is a bug"), [])
        | instancer :: _ =>
          let body := [SceneOp.melEval
            ("houdiniEngine_syncAsset \"" ++ asset ++ "\";")]
          match maintainConnectionsOps h asset body none with
          | (.error e, ops) => (.error e, ops)
          | (.ok (), ops) =>
            match get_shape_transforms_with h.nodeType
                h.meshConnectionsAfter asset with
            | .error e => (.error e, ops)
            | .ok after_update =>
              let new_shapes := after_update.filter
                (fun s => !before_update.contains s)
              (.ok true, ops ++ updateConnectOps instancer
                before_update.length new_shapes)

/-! ### app.py: the dialog state

We model only what the claims need: a picker (SearchComboBox) is its item
list and current text; a mapper box is its section with its source rows;
the App state is the name field, the Selected checkbox, the cached
selection, the mapping_data dict and the mapping layout.  Qt object
identity and rendering are outside the model; deleteLater on every layout
item is modelled as the layout being emptied once the deferred deletions
run. -/

/-- A SearchComboBox: the items added by populate (the placeholder ""
first, line 65) and the current text of the editable line. -/
structure Picker where
  items : List String
  currentText : String
deriving DecidableEq, Repr

/-- SearchComboBox.populate over a fresh box (app.py lines 63-66): clear,
add the placeholder, add the items; the current text starts at the first
item, the placeholder. -/
def Picker.populate (targets : List String) : Picker :=
  { items := "" :: targets, currentText := "" }

/-- Embedding of SearchComboBox.get_valid_value (app.py lines 68-81):
the current text when it is among the items, else None. -/
def get_valid_value (p : Picker) : Option String :=
  if p.items.contains p.currentText then some p.currentText else none

/-- A mapper group box of _create_mapper: its section name and the source
attribute of each row (the pickers themselves live in mapping_data). -/
structure MapperBox where
  sectionName : String
  sources : List String
deriving DecidableEq, Repr

/-- The dialog state fields the claims touch. -/
structure AppState where
  nameText : String
  fromSelectionChecked : Bool
  selection : List String
  mappingData : List (String × Picker)
  mappingLayout : List MapperBox
deriving DecidableEq, Repr

/-- DEFAULT_TARGETS of app.py lines 11-23. -/
def DEFAULT_TARGETS : List String :=
  ["position", "rampPosition", "worldPosition",
   "velocity", "rampVelocity", "worldVelocity",
   "Acceleration", "rampAcceleration", "mass"]

/-- INSTANCER_PP_ATTRIBUTES["general"] of app.py lines 26-32. -/
def GENERAL_ATTRIBUTES : List String :=
  ["position", "scale", "shear", "objectIndex", "visibility"]

/-- INSTANCER_PP_ATTRIBUTES["rotation"] of app.py lines 33-40. -/
def ROTATION_ATTRIBUTES : List String :=
  ["rotation", "aimDirection", "aimPosition", "aimAxis", "aimUpAxis",
   "aimWorldUp"]

/-- Python a.split(":")[0]. -/
def cleanAttr (s : String) : String :=
  (s.splitOn ":").headD s

/-- The target-gathering loop of App.get_settings (app.py lines 203-207):
per asset, get_particle_system (which can raise) then the dynamic
attribute list (None makes the comprehension of line 206 raise
TypeError); the set union is modelled as ordered concatenation, to be
deduplicated by the caller. -/
def collectTargets (h : Host) : List String → Except PyErr (List String)
  | [] => .ok []
  | asset :: rest =>
    match get_particle_system h asset with
    | .error e => .error e
    | .ok particle =>
      match h.particleAttrs particle with
      | none => .error (.typeError "NoneType object is not iterable")
      | some attrs =>
        match collectTargets h rest with
        | .error e => .error e
        | .ok more => .ok (attrs.map cleanAttr ++ more)

/-- Python dict assignment d[k] = v on an insertion-ordered association
list. -/
def dictSet (d : List (String × Picker)) (k : String) (v : Picker) :
    List (String × Picker) :=
  if d.any (fun kv => kv.1 = k) then
    d.map (fun kv => if kv.1 = k then (k, v) else kv)
  else d ++ [(k, v)]

/-- The row loop of App._create_mapper (app.py lines 221-234): for each
source a fresh populated picker is stored in mapping_data. -/
def createMapperData (md : List (String × Picker)) (sources targets : List String) :
    List (String × Picker) :=
  sources.foldl (fun d s => dictSet d s (Picker.populate targets)) md

/-- Embedding of App.get_settings (app.py lines 195-213): cache the
discovered assets in _selection, return early when there are none, gather
the targets (any failure there happens before any widget or mapping_data
change), then add the general and rotation mapper boxes.  The result is
the new state plus the exception if one escaped. -/
def get_settings (h : Host) (st : AppState) : AppState × Option PyErr :=
  let assets := get_houdini_assets h st.fromSelectionChecked
  let st1 := { st with selection := assets }
  match assets with
  | [] => (st1, none)
  | _ :: _ =>
    match collectTargets h assets with
    | .error e => (st1, some e)
    | .ok raw =>
      let targets := DEFAULT_TARGETS ++ raw.dedup
      let md1 := createMapperData st1.mappingData GENERAL_ATTRIBUTES targets
      let md2 := createMapperData md1 ROTATION_ATTRIBUTES targets
      ({ st1 with
          mappingData := md2,
          mappingLayout := st1.mappingLayout ++
            [{ sectionName := "general", sources := GENERAL_ATTRIBUTES },
             { sectionName := "rotation", sources := ROTATION_ATTRIBUTES }] },
        none)

/-- Embedding of App.refresh (app.py lines 181-193): deleteLater on every
widget currently in the mapping layout (all of them, since the loop runs
over the item count before any deferred deletion takes effect) empties
the layout, mapping_data is reset to the empty dict, and get_settings
rebuilds both from the scene. -/
def App.refresh (h : Host) (st : AppState) : AppState × Option PyErr :=
  get_settings h { st with mappingLayout := [], mappingData := [] }

/-- The attribute mapping App.process builds (app.py lines 247-250):
keep a source when its picker valid value is neither None nor the empty
placeholder, mapped to that value. -/
def App.attributeMapping (st : AppState) : List (String × String) :=
  st.mappingData.filterMap (fun sp =>
    match get_valid_value sp.2 with
    | none => none
    | some t => if t = "" then none else some (sp.1, t))

/-- The per-asset loop of App.process (app.py lines 253-258):
map_houdini_asset then lib.replicate, accumulating the scene edits. -/
def processLoop (h : Host) (name : String)
    (mapping : List (String × String)) :
    List String → Except PyErr Unit × List SceneOp
  | [] => (.ok (), [])
  | asset :: rest =>
    match map_houdini_asset h asset with
    | .error e => (.error e, [])
    | .ok am =>
      match replicate h name am (some mapping) with
      | (.ok _, tr) =>
        match processLoop h name mapping rest with
        | (r, more) => (r, tr ++ more)
      | (.error e, tr) => (.error e, tr)

/-- Embedding of App.process (app.py lines 240-258): an empty name field
raises RuntimeError before anything else runs; otherwise the attribute
mapping is read from the pickers and every cached asset is mapped and
replicated. -/
def App.process (h : Host) (st : AppState) :
    Except PyErr Unit × List SceneOp :=
  if st.nameText = "" then
    (.error (.runtimeError "Name is a required field"), [])
  else
    processLoop h st.nameText (App.attributeMapping st) st.selection

/-! ### Concrete hosts and states used by witnesses and counterexamples -/

/-- A small consistent scene: one houdiniAsset houdiniA with one
descendant nParticle particleA, one instancer instancerA driving meshA,
and one external nParticle particleX feeding instancerA. -/
def hostBase : Host where
  nodeType := fun n => if n = "instancerA" then "instancer" else "houdiniAsset"
  meshConnections := fun _ => some ["meshA"]
  meshConnectionsAfter := fun _ => some ["meshA", "meshB"]
  nparticleConnections := fun _ => some ["particleA"]
  nparticleConnectionsExact := fun _ => some ["particleX"]
  instancerConnections := fun _ => some ["instancerA"]
  allDescendents := fun _ => some ["childA"]
  nparticleDescendents := fun _ => some ["particleA"]
  inputHierarchy := fun _ => some ["meshA"]
  inputHierarchyPairs := fun _ =>
    some ["instancerA.inputHierarchy[0]", "meshA.matrix"]
  particleAttrs := fun _ => some ["radiusPP", "velocity"]
  cacheArrayConnections := fun _ => some ["houdiniA.outputPart"]
  lsNucleus := []
  lsHoudiniAsset := ["houdiniA"]
  lsSelHoudiniAsset := ["houdiniA"]
  uniqueName := fun n => n ++ "001"
  groupResult := fun n => n
  createdNucleusName := "nucleus1"
  duplicateResult := fun _ newName => [newName]
  instancerResult := fun n => n
  parentFails := fun _ _ => false

/-- hostBase with no nParticle connected to any asset: the
listConnections query answers None. -/
def hostNoParticles : Host :=
  { hostBase with nparticleConnections := fun _ => none }

/-- hostBase where every node has a non houdiniAsset, non instancer
type. -/
def hostWrongType : Host :=
  { hostBase with nodeType := fun _ => "transform" }

/-! ### Claim C2 -/

/-- pyFilterIn on two present lists is an ordinary filter. -/
theorem pyFilterIn_some_some (l d : List String) :
    pyFilterIn (some l) (some d) = .ok (l.filter (fun i => d.contains i)) := by
  cases l <;> rfl

/-- Claim C2, counterexample: with zero connected nParticles the host
query answers None (the repository models this itself with its
`or []` idiom), and get_particle_system then fails with a TypeError, not
with the assertion error the claim promises for the zero case. -/
theorem get_particle_system_zero_not_assert :
    hostNoParticles.nparticleConnections "houdiniA" = none ∧
    get_particle_system hostNoParticles "houdiniA" =
      .error (.typeError "NoneType object is not iterable") ∧
    ∀ m, get_particle_system hostNoParticles "houdiniA" ≠
      .error (.assertionError m) := by
  refine ⟨rfl, rfl, ?_⟩
  intro m hm
  rw [show get_particle_system hostNoParticles "houdiniA" =
      .error (.typeError "NoneType object is not iterable") from rfl] at hm
  exact PyErr.noConfusion (Except.error.inj hm)

/-- Characterisation of get_particle_system when both host queries
answer lists: the unique connected descendant nParticle is returned, and
any other count of distinct candidates is an assertion error. -/
theorem gps_characterisation (h : Host) (a : String)
    (conns descs : List String)
    (hc : h.nparticleConnections a = some conns)
    (hd : h.nparticleDescendents a = some descs) :
    (∀ ps, get_particle_system h a = .ok ps →
      ps ∈ conns ∧ ps ∈ descs ∧ ∀ q, q ∈ conns → q ∈ descs → q = ps) ∧
    (∀ ps, (conns.filter (fun i => descs.contains i)).dedup = [ps] →
      get_particle_system h a = .ok ps) ∧
    ((conns.filter (fun i => descs.contains i)).dedup.length ≠ 1 →
      get_particle_system h a = .error (.assertionError
        ("This tool does not support multiple nParticles, got " ++
          toString (conns.filter (fun i => descs.contains i)).dedup.length ++
          " nParticles"))) := by
  have hbase : get_particle_system h a =
      match (conns.filter (fun i => descs.contains i)).dedup with
      | [ps] => .ok ps
      | l => .error (.assertionError
          ("This tool does not support multiple nParticles, got " ++
            toString l.length ++ " nParticles")) := by
    unfold get_particle_system
    rw [hc, hd, pyFilterIn_some_some]
  refine ⟨?_, ?_, ?_⟩
  · intro ps hok
    rw [hbase] at hok
    rcases hdd : (conns.filter (fun i => descs.contains i)).dedup with
      _ | ⟨x, _ | ⟨y, rest⟩⟩
    · rw [hdd] at hok; exact absurd hok (by simp)
    · rw [hdd] at hok
      have hx : x = ps := by
        simpa using hok
      subst hx
      have hmem : x ∈ (conns.filter (fun i => descs.contains i)).dedup := by
        rw [hdd]; exact List.mem_singleton.mpr rfl
      rw [List.mem_dedup] at hmem
      rw [List.mem_filter] at hmem
      refine ⟨hmem.1, ?_, ?_⟩
      · have := hmem.2
        simpa [List.contains, List.elem_eq_mem] using this
      · intro q hq1 hq2
        have hqf : q ∈ (conns.filter (fun i => descs.contains i)).dedup := by
          rw [List.mem_dedup, List.mem_filter]
          exact ⟨hq1, by simpa [List.contains, List.elem_eq_mem] using hq2⟩
        rw [hdd] at hqf
        simpa using hqf
    · rw [hdd] at hok; exact absurd hok (by simp)
  · intro ps hdd
    rw [hbase, hdd]
  · intro hlen
    rw [hbase]
    rcases hdd : (conns.filter (fun i => descs.contains i)).dedup with
      _ | ⟨x, _ | ⟨y, rest⟩⟩
    · rfl
    · rw [hdd] at hlen; exact absurd rfl hlen
    · rfl

/-- Claim C2 (amended): when both host queries answer lists,
get_particle_system returns the unique nParticle that is both a
destination connection and a descendant, and fails with an assertion
error whenever the number of distinct such nodes is not one; when the
connection query answers None (zero connected nParticles) the failure is
a TypeError instead. -/
theorem get_particle_system_unique_or_assert (h : Host) (a : String)
    (conns descs : List String)
    (hc : h.nparticleConnections a = some conns)
    (hd : h.nparticleDescendents a = some descs) :
    (∀ ps, get_particle_system h a = .ok ps →
      ps ∈ conns ∧ ps ∈ descs ∧ ∀ q, q ∈ conns → q ∈ descs → q = ps) ∧
    (∀ ps, (conns.filter (fun i => descs.contains i)).dedup = [ps] →
      get_particle_system h a = .ok ps) ∧
    ((conns.filter (fun i => descs.contains i)).dedup.length ≠ 1 →
      get_particle_system h a = .error (.assertionError
        ("This tool does not support multiple nParticles, got " ++
          toString (conns.filter (fun i => descs.contains i)).dedup.length ++
          " nParticles"))) :=
  gps_characterisation h a conns descs hc hd

/-- Claim C2 amended theorem checked on the one-particle scene: the
returned node is the unique connected descendant nParticle. -/
theorem get_particle_system_unique_or_assert_witness :
    get_particle_system hostBase "houdiniA" = .ok "particleA" :=
  (get_particle_system_unique_or_assert hostBase "houdiniA"
    ["particleA"] ["particleA"] rfl rfl).2.1 "particleA" (by decide)

/-! ### Claim C3 -/

/-- Claim C3, counterexample: the wrong-node-type guard of
get_shape_transforms (lib.py line 107-108) reports through an explicitly
raised ValueError, not through an assert. -/
theorem guard_is_explicit_raise_not_assert :
    get_shape_transforms hostWrongType "someNode" =
      .error (.valueError "Wrong node type") ∧
    (∀ m, get_shape_transforms hostWrongType "someNode" ≠
      .error (.assertionError m)) ∧
    get_input_hierarchy hostWrongType "someNode" =
      .error (.valueError "Given node is not of type instancer") := by
  refine ⟨rfl, ?_, rfl⟩
  intro m hm
  rw [show get_shape_transforms hostWrongType "someNode" =
      .error (.valueError "Wrong node type") from rfl] at hm
  exact PyErr.noConfusion (Except.error.inj hm)

/-- Claim C3 (amended): the guards of the lib scene-graph operations are
a mix.  The wrong-node-type guards of get_shape_transforms and
get_input_hierarchy raise ValueError, the missing particle_system guard
of replicate raises RuntimeError, while the single-nParticle check of
get_particle_system, the single-connection and single-duplicate checks
inside replicate, and the instancer check of update_asset are asserts. -/
theorem lib_guards_are_mixed :
    (∀ (h : Host) (n : String), h.nodeType n ≠ "houdiniAsset" →
      get_shape_transforms h n = .error (.valueError "Wrong node type")) ∧
    (∀ (h : Host) (n : String), h.nodeType n ≠ "instancer" →
      get_input_hierarchy h n =
        .error (.valueError "Given node is not of type instancer")) ∧
    (∀ (h : Host) (name asset : String) (m : AssetData)
        (rest : AssetMapping) (attrM : Option (List (String × String))),
      m.particle_system = none →
      (replicate h name ((asset, m) :: rest) attrM).1 =
        .error (.runtimeError ("Incomplete mapping of asset " ++ asset ++
          ", missing particle_system"))) ∧
    (∀ (h : Host) (a : String) (conns descs : List String),
      h.nparticleConnections a = some conns →
      h.nparticleDescendents a = some descs →
      (conns.filter (fun i => descs.contains i)).dedup.length ≠ 1 →
      ∃ m, get_particle_system h a = .error (.assertionError m)) ∧
    (∀ (h : Host) (name nucleus grp : String) (i : Nat) (asset : String)
        (m : AssetData) (kwargs : List (String × String))
        (ps : String) (v : Option (List String))
        (rest : List (String × Option (List String))),
      m.particle_system = some ((ps, v) :: rest) →
      ((h.cacheArrayConnections (ps ++ ".cacheArrayData")).getD []).length ≠ 1 →
      (replicateEntry h name nucleus grp i asset m kwargs).1 =
        .error (.assertionError "This is a bug")) ∧
    (∀ (h : Host) (name nucleus grp : String) (i : Nat) (asset : String)
        (m : AssetData) (kwargs : List (String × String))
        (ps : String) (v : Option (List String))
        (rest : List (String × Option (List String))) (d : String),
      m.particle_system = some ((ps, v) :: rest) →
      (h.cacheArrayConnections (ps ++ ".cacheArrayData")).getD [] = [d] →
      (h.duplicateResult ps (name ++ fmt3 i ++ "_PART")).length ≠ 1 →
      (replicateEntry h name nucleus grp i asset m kwargs).1 =
        .error (.assertionError ("This is a bug, duplicated " ++
          toString
            (h.duplicateResult ps (name ++ fmt3 i ++ "_PART")).length ++
          " nParticle nodes"))) ∧
    (∀ (h : Host) (a t0 : String) (rest : List String),
      get_shape_transforms h a = .ok (t0 :: rest) →
      pyFilterNotInL ((h.instancerConnections t0).getD [])
        (h.allDescendents a) = .ok [] →
      (update_asset h a).1 = .error (.assertionError "This is a bug")) := by
  refine ⟨?_, ?_, ?_, ?_, ?_, ?_, ?_⟩
  · intro h n hn
    simp [get_shape_transforms, get_shape_transforms_with, hn]
  · intro h n hn
    simp [get_input_hierarchy, hn]
  · intro h name asset m rest attrM hm
    simp [replicate, replicateLoop, replicateEntry, hm]
  · intro h a conns descs hc hd hlen
    exact ⟨_, (gps_characterisation h a conns descs hc hd).2.2 hlen⟩
  · intro h name nucleus grp i asset m kwargs ps v rest hm hlen
    rcases e : (h.cacheArrayConnections (ps ++ ".cacheArrayData")).getD []
      with _ | ⟨d, _ | ⟨d2, t⟩⟩
    · simp [replicateEntry, hm, e]
    · rw [e] at hlen; exact absurd rfl hlen
    · simp [replicateEntry, hm, e]
  · intro h name nucleus grp i asset m kwargs ps v rest d hps hca hlen
    rcases hdup : h.duplicateResult ps (name ++ fmt3 i ++ "_PART")
      with _ | ⟨ns, _ | ⟨ns2, t⟩⟩
    · simp [replicateEntry, hps, hca, hdup]
    · rw [hdup] at hlen; exact absurd rfl hlen
    · simp [replicateEntry, hps, hca, hdup]
  · intro h a t0 rest hbt hfi
    simp [update_asset, hbt, hfi]

/-- Claim C3 amended theorem checked concretely: a wrong node type makes
get_shape_transforms raise ValueError. -/
theorem lib_guards_are_mixed_witness :
    get_shape_transforms hostWrongType "someNode" =
      .error (.valueError "Wrong node type") :=
  lib_guards_are_mixed.1 hostWrongType "someNode" (by decide)

/-! ### Claim C4 -/

/-- Claim C4: the attribute mapping App.process builds and hands to
lib.replicate (through App.attributeMapping, used verbatim at the
replicate call of app.py line 258) contains exactly the sources whose
picker current text is one of the populated picker items and is neither
the empty placeholder nor the None that get_valid_value answers for
unknown text; each kept source is mapped to that text. -/
theorem attribute_mapping_is_exactly_valid_choices (st : AppState)
    (s t : String) :
    (s, t) ∈ App.attributeMapping st ↔
      ∃ p : Picker, (s, p) ∈ st.mappingData ∧
        p.currentText = t ∧ t ∈ p.items ∧ t ≠ "" := by
  unfold App.attributeMapping
  rw [List.mem_filterMap]
  constructor
  · rintro ⟨⟨s1, p⟩, hmem, hf⟩
    rcases hv : get_valid_value p with _ | u
    · simp [hv] at hf
    · rw [hv] at hf
      by_cases hu : u = ""
      · simp [hu] at hf
      · simp [hu] at hf
        unfold get_valid_value at hv
        by_cases hin : p.items.contains p.currentText
        · rw [if_pos hin] at hv
          have hcu : p.currentText = u := Option.some.inj hv
          refine ⟨p, hf.1 ▸ hmem, hcu.trans hf.2, ?_, hf.2 ▸ hu⟩
          rw [← hf.2, ← hcu]
          simpa [List.contains, List.elem_eq_mem] using hin
        · rw [if_neg hin] at hv; exact absurd hv (by simp)
  · rintro ⟨p, hmem, hct, hit, hne⟩
    refine ⟨(s, p), hmem, ?_⟩
    have hin : p.items.contains p.currentText = true := by
      rw [hct]; simpa [List.contains, List.elem_eq_mem] using hit
    unfold get_valid_value
    rw [if_pos hin, hct]
    simp [hne]

/-! ### Claim C9 -/

/-- Claim C9: with an empty name field, App.process raises
RuntimeError("Name is a required field") at once: no attribute mapping is
read, no lib call runs, and the scene-edit trace is empty. -/
theorem process_empty_name_raises_before_work (h : Host) (st : AppState)
    (hname : st.nameText = "") :
    App.process h st =
      (.error (.runtimeError "Name is a required field"), []) := by
  simp [App.process, hname]

/-- An App state with an empty name field over a scene with one asset. -/
def stEmptyName : AppState :=
  { nameText := "", fromSelectionChecked := true,
    selection := ["houdiniA"],
    mappingData := [("scale", { items := ["", "radiusPP"],
                                currentText := "radiusPP" })],
    mappingLayout := [] }

/-- Claim C9 checked concretely on stEmptyName. -/
theorem process_empty_name_raises_before_work_witness :
    App.process hostBase stEmptyName =
      (.error (.runtimeError "Name is a required field"), []) :=
  process_empty_name_raises_before_work hostBase stEmptyName rfl

/-! ### Claim C6 -/

/-- Claim C6: for a fixed scene state, fixed as the Host record of all
host-API query responses, each library operation is deterministic: two
runs with the same inputs and host responses agree on the return value
and, for the edit-performing operations, on the whole ordered scene-edit
trace (the trace is part of the replicate and update_asset results;
map_houdini_asset performs queries only, its edit trace is empty). -/
theorem lib_operations_deterministic (h : Host) (asset name0 : String)
    (am : AssetMapping) (attrM : Option (List (String × String))) :
    (∀ o₁ o₂, map_houdini_asset h asset = o₁ →
      map_houdini_asset h asset = o₂ → o₁ = o₂) ∧
    (∀ o₁ o₂, replicate h name0 am attrM = o₁ →
      replicate h name0 am attrM = o₂ → o₁ = o₂) ∧
    (∀ o₁ o₂, update_asset h asset = o₁ →
      update_asset h asset = o₂ → o₁ = o₂) :=
  ⟨fun _ _ h1 h2 => h1 ▸ h2, fun _ _ h1 h2 => h1 ▸ h2,
   fun _ _ h1 h2 => h1 ▸ h2⟩

/-- Claim C6 checked concretely: two runs of map_houdini_asset on the
same scene agree. -/
theorem lib_operations_deterministic_witness :
    map_houdini_asset hostBase "houdiniA" =
      map_houdini_asset hostBase "houdiniA" :=
  (lib_operations_deterministic hostBase "houdiniA" "char" [] none).1
    (map_houdini_asset hostBase "houdiniA")
    (map_houdini_asset hostBase "houdiniA") rfl rfl

/-! ### Claim C7 -/

/-- The components of get_settings depend only on the Selected flag and
the incoming mapping state, not on the name field or the cached
selection. -/
theorem get_settings_congr (h : Host) (s t : AppState)
    (h1 : s.fromSelectionChecked = t.fromSelectionChecked)
    (h2 : s.mappingData = t.mappingData)
    (h3 : s.mappingLayout = t.mappingLayout) :
    (get_settings h s).1.mappingData = (get_settings h t).1.mappingData ∧
    (get_settings h s).1.mappingLayout = (get_settings h t).1.mappingLayout ∧
    (get_settings h s).1.selection = (get_settings h t).1.selection ∧
    (get_settings h s).2 = (get_settings h t).2 := by
  unfold get_settings
  rw [h1, h2, h3]
  cases hassets : get_houdini_assets h t.fromSelectionChecked with
  | nil => exact ⟨rfl, rfl, rfl, rfl⟩
  | cons a rest =>
    dsimp only
    cases hct : collectTargets h (a :: rest) with
    | error e => exact ⟨rfl, rfl, rfl, rfl⟩
    | ok raw => exact ⟨rfl, rfl, rfl, rfl⟩

/-- Claim C7: App.refresh leaves no mapping state from before the call:
the resulting mapping_data, mapping layout, cached selection and escaped
exception are the same whatever mapping_data and widgets were present
before, depending only on the Selected checkbox that drives the scene
query. -/
theorem refresh_clears_mapping_state (h : Host) (st₁ st₂ : AppState)
    (hsel : st₁.fromSelectionChecked = st₂.fromSelectionChecked) :
    (App.refresh h st₁).1.mappingData = (App.refresh h st₂).1.mappingData ∧
    (App.refresh h st₁).1.mappingLayout =
      (App.refresh h st₂).1.mappingLayout ∧
    (App.refresh h st₁).1.selection = (App.refresh h st₂).1.selection ∧
    (App.refresh h st₁).2 = (App.refresh h st₂).2 := by
  unfold App.refresh
  exact get_settings_congr h _ _ hsel rfl rfl

/-- An App state carrying leftover mapping state. -/
def stStale : AppState :=
  { nameText := "old", fromSelectionChecked := true,
    selection := ["gone"],
    mappingData := [("scale", { items := ["", "mass"],
                                currentText := "mass" })],
    mappingLayout := [{ sectionName := "general", sources := ["scale"] }] }

/-- An App state with no mapping state at all. -/
def stFresh : AppState :=
  { nameText := "new", fromSelectionChecked := true,
    selection := [], mappingData := [], mappingLayout := [] }

/-- Claim C7 checked concretely: refreshing the stale and the fresh state
over the same scene yields the same mapping state. -/
theorem refresh_clears_mapping_state_witness :
    (App.refresh hostBase stStale).1.mappingData =
      (App.refresh hostBase stFresh).1.mappingData ∧
    (App.refresh hostBase stStale).1.mappingLayout =
      (App.refresh hostBase stFresh).1.mappingLayout ∧
    (App.refresh hostBase stStale).1.selection =
      (App.refresh hostBase stFresh).1.selection ∧
    (App.refresh hostBase stStale).2 = (App.refresh hostBase stFresh).2 :=
  refresh_clears_mapping_state hostBase stStale stFresh rfl

/-! ### Claim C8 -/

/-- applyOps over an appended trace composes. -/
theorem applyOps_append (s : List (String × String)) (t u : List SceneOp) :
    applyOps s (t ++ u) = applyOps (applyOps s t) u := by
  induction t generalizing s with
  | nil => rfl
  | cons op rest ih => simp [applyOps, ih]

/-- Membership after connIns. -/
theorem mem_connIns (s : List (String × String)) (c d : String × String) :
    c ∈ connIns s d ↔ c ∈ s ∨ c = d := by
  unfold connIns
  by_cases hd : d ∈ s
  · rw [if_pos hd]
    constructor
    · exact Or.inl
    · rintro (hc | rfl)
      · exact hc
      · exact hd
  · rw [if_neg hd]
    simp

/-- Membership after connDel. -/
theorem mem_connDel (s : List (String × String)) (c d : String × String) :
    c ∈ connDel s d ↔ c ∈ s ∧ c ≠ d := by
  unfold connDel
  simp [List.mem_filter]

/-- Applying the disconnect ops of a pair list removes exactly those
pairs. -/
theorem mem_applyOps_disconnects (s : List (String × String))
    (l : List (String × String)) (c : String × String) :
    c ∈ applyOps s (l.map fun p => SceneOp.disconnectAttr p.1 p.2) ↔
      c ∈ s ∧ c ∉ l := by
  induction l generalizing s with
  | nil => simp [applyOps]
  | cons d rest ih =>
    simp only [List.map_cons, applyOps, applyOp]
    rw [ih, mem_connDel]
    constructor
    · rintro ⟨⟨hs, hne⟩, hnr⟩
      refine ⟨hs, ?_⟩
      intro hmem
      rcases List.mem_cons.mp hmem with rfl | hmem
      · exact hne rfl
      · exact hnr hmem
    · rintro ⟨hs, hnl⟩
      refine ⟨⟨hs, fun hc => hnl (hc ▸ List.mem_cons_self d rest)⟩, ?_⟩
      intro hmem
      exact hnl (List.mem_cons_of_mem d hmem)

/-- Applying the forced reconnect ops of a pair list adds exactly those
pairs. -/
theorem mem_applyOps_connects (s : List (String × String))
    (l : List (String × String)) (c : String × String) :
    c ∈ applyOps s (l.map fun p => SceneOp.connectAttr p.1 p.2 true) ↔
      c ∈ s ∨ c ∈ l := by
  induction l generalizing s with
  | nil => simp [applyOps]
  | cons d rest ih =>
    simp only [List.map_cons, applyOps, applyOp]
    rw [ih, mem_connIns]
    constructor
    · rintro ((hs | rfl) | hr)
      · exact Or.inl hs
      · exact Or.inr (List.mem_cons_self d rest)
      · exact Or.inr (List.mem_cons_of_mem d hr)
    · rintro (hs | hmem)
      · exact Or.inl (Or.inl hs)
      · rcases List.mem_cons.mp hmem with rfl | hmem
        · exact Or.inl (Or.inr rfl)
        · exact Or.inr hmem

/-- Claim C8: whenever the collection phase of maintain_connections
succeeds with the pair list l, every listed pair is an existing
connection (hsub, these pairs came from listConnections), and the body
leaves the connection set as it found it (hbody) — whether or not the
body finishes with an exception (bodyErr) — the connection set after the
context equals the one before it, every disconnected pair included. -/
theorem maintain_connections_restores (h : Host) (asset : String)
    (bodyOps : List SceneOp) (bodyErr : Option PyErr)
    (scene l : List (String × String))
    (hc : collectConnections h asset = (.ok (), l))
    (hsub : ∀ c ∈ l, c ∈ scene)
    (hbody : ∀ c : String × String,
      c ∈ applyOps
        (applyOps scene (l.map fun p => SceneOp.disconnectAttr p.1 p.2))
        bodyOps ↔
      c ∈ applyOps scene (l.map fun p => SceneOp.disconnectAttr p.1 p.2)) :
    (∀ c ∈ l,
      c ∈ applyOps scene (maintainConnectionsOps h asset bodyOps bodyErr).2) ∧
    (∀ c : String × String,
      c ∈ applyOps scene (maintainConnectionsOps h asset bodyOps bodyErr).2 ↔
        c ∈ scene) := by
  have htr : (maintainConnectionsOps h asset bodyOps bodyErr).2 =
      (l.map fun p => SceneOp.disconnectAttr p.1 p.2) ++ bodyOps ++
      (l.map fun p => SceneOp.connectAttr p.1 p.2 true) := by
    unfold maintainConnectionsOps
    rw [hc]
    cases bodyErr <;> rfl
  rw [htr]
  have hmem : ∀ c : String × String,
      c ∈ applyOps scene
        ((l.map fun p => SceneOp.disconnectAttr p.1 p.2) ++ bodyOps ++
          (l.map fun p => SceneOp.connectAttr p.1 p.2 true)) ↔ c ∈ scene := by
    intro c
    rw [applyOps_append, applyOps_append, mem_applyOps_connects, hbody,
      mem_applyOps_disconnects]
    constructor
    · rintro (⟨hs, _⟩ | hl)
      · exact hs
      · exact hsub c hl
    · intro hs
      by_cases hl : c ∈ l
      · exact Or.inr hl
      · exact Or.inl ⟨hs, hl⟩
  exact ⟨fun c hcl => (hmem c).mpr (hsub c hcl), hmem⟩

/-- The connection scene of the hostBase fixture: meshA feeds
instancerA. -/
def sceneBase : List (String × String) :=
  [("meshA.matrix", "instancerA.inputHierarchy[0]")]

/-- Claim C8 checked concretely on the hostBase scene with a body that
raises: after the context, the set of instancer input connections equals
the one before. -/
theorem maintain_connections_restores_witness :
    (∀ c ∈ [(("meshA.matrix" : String),
        ("instancerA.inputHierarchy[0]" : String))],
      c ∈ applyOps sceneBase
        (maintainConnectionsOps hostBase "houdiniA" []
          (some (.runtimeError "boom"))).2) ∧
    (∀ c : String × String,
      c ∈ applyOps sceneBase
        (maintainConnectionsOps hostBase "houdiniA" []
          (some (.runtimeError "boom"))).2 ↔ c ∈ sceneBase) :=
  maintain_connections_restores hostBase "houdiniA" []
    (some (.runtimeError "boom")) sceneBase
    [("meshA.matrix", "instancerA.inputHierarchy[0]")]
    (by rfl) (by decide) (fun c => Iff.rfl)

/-! ### Claims C1 and C10: facts about the replicate loop -/

/-- Recogniser for the nucleus-assignment edit. -/
def isAssignOp (nucleus : String) (op : SceneOp) : Bool :=
  op = SceneOp.melEval ("assignNSolver " ++ nucleus)

/-- No trace a replicate-loop iteration emits contains a disconnect or a
createNode, its mel calls all assign the given nucleus, and a successful
iteration assigns it exactly once. -/
theorem replicateEntry_ops_shape (h : Host) (name nucleus grp : String)
    (i : Nat) (asset : String) (m : AssetData)
    (kwargs : List (String × String)) (res : Except PyErr Unit)
    (ops : List SceneOp)
    (he : replicateEntry h name nucleus grp i asset m kwargs = (res, ops)) :
    (∀ a b, SceneOp.disconnectAttr a b ∉ ops) ∧
    (∀ ty, SceneOp.createNode ty ∉ ops) ∧
    (∀ s, SceneOp.melEval s ∈ ops → s = "assignNSolver " ++ nucleus) ∧
    (res = .ok () → ops.countP (isAssignOp nucleus) = 1) := by
  unfold replicateEntry at he
  split at he
  · injection he with h1 h2
    subst h1; subst h2
    refine ⟨by simp, by simp, by simp, ?_⟩
    intro hres; cases hres
  · split at he
    · injection he with h1 h2
      subst h1; subst h2
      refine ⟨by simp, by simp, by simp, ?_⟩
      intro hres; cases hres
    · split at he
      · dsimp only at he
        split at he
        · injection he with h1 h2
          subst h1; subst h2
          refine ⟨?_, ?_, ?_, ?_⟩
          · intro a b
            simp only [List.mem_append, List.mem_cons, List.not_mem_nil]
            rintro (hmem | hmem)
            · simp at hmem
            · split at hmem <;> simp at hmem
          · intro ty
            simp only [List.mem_append, List.mem_cons, List.not_mem_nil]
            rintro (hmem | hmem)
            · simp at hmem
            · split at hmem <;> simp at hmem
          · intro s hmem
            simp only [List.mem_append, List.mem_cons, List.not_mem_nil]
              at hmem
            rcases hmem with hmem | hmem
            · rcases hmem with h' | h' | h' | h' | h' | h' | h' | h' | h' |
                h' | h' <;> first
              | (exact (SceneOp.melEval.inj h').symm ▸ rfl)
              | simp at h'
            · split at hmem <;> simp at hmem
          · intro _
            rw [List.countP_append]
            simp [List.countP_cons, isAssignOp]
        · injection he with h1 h2
          subst h1; subst h2
          refine ⟨by simp, by simp, by simp, ?_⟩
          intro hres; cases hres
      · injection he with h1 h2
        subst h1; subst h2
        refine ⟨by simp, by simp, by simp, ?_⟩
        intro hres; cases hres

/-- Shape of the whole replicate-loop trace: no disconnect, no
createNode, every mel call assigns the chosen nucleus, and a successful
loop assigns it once per entry. -/
theorem replicateLoop_ops_shape (h : Host) (name nucleus grp : String)
    (kwargs : List (String × String)) (entries : AssetMapping) :
    ∀ (i : Nat) (res : Except PyErr Unit) (ops : List SceneOp),
    replicateLoop h name nucleus grp kwargs entries i = (res, ops) →
    (∀ a b, SceneOp.disconnectAttr a b ∉ ops) ∧
    (∀ ty, SceneOp.createNode ty ∉ ops) ∧
    (∀ s, SceneOp.melEval s ∈ ops → s = "assignNSolver " ++ nucleus) ∧
    (res = .ok () → ops.countP (isAssignOp nucleus) = entries.length) := by
  induction entries with
  | nil =>
    intro i res ops he
    unfold replicateLoop at he
    injection he with h1 h2
    subst h1; subst h2
    exact ⟨by simp, by simp, by simp, fun _ => rfl⟩
  | cons entry rest ih =>
    intro i res ops he
    obtain ⟨asset, m⟩ := entry
    unfold replicateLoop at he
    rcases hent : replicateEntry h name nucleus grp i asset m kwargs with
      ⟨r, eops⟩
    rw [hent] at he
    have hshape := replicateEntry_ops_shape h name nucleus grp i asset m
      kwargs r eops hent
    cases r with
    | ok u =>
      cases u
      rcases hloop : replicateLoop h name nucleus grp kwargs rest (i + 1)
        with ⟨r2, more⟩
      rw [hloop] at he
      injection he with h1 h2
      subst h1; subst h2
      have hrest := ih (i + 1) r2 more hloop
      refine ⟨?_, ?_, ?_, ?_⟩
      · intro a b hmem
        rcases List.mem_append.mp hmem with hmem | hmem
        · exact hshape.1 a b hmem
        · exact hrest.1 a b hmem
      · intro ty hmem
        rcases List.mem_append.mp hmem with hmem | hmem
        · exact hshape.2.1 ty hmem
        · exact hrest.2.1 ty hmem
      · intro s hmem
        rcases List.mem_append.mp hmem with hmem | hmem
        · exact hshape.2.2.1 s hmem
        · exact hrest.2.2.1 s hmem
      · intro hres
        rw [List.countP_append, hshape.2.2.2 rfl, hrest.2.2.2 hres]
        simp [List.length_cons, Nat.add_comm]
    | error e =>
      injection he with h1 h2
      subst h1; subst h2
      refine ⟨hshape.1, hshape.2.1, hshape.2.2.1, ?_⟩
      intro hres; cases hres

/-- A successful replicate loop ran every entry successfully, at its
enumerated index, and each entry trace is contained in the loop trace. -/
theorem replicateLoop_ok_entries (h : Host) (name nucleus grp : String)
    (kwargs : List (String × String)) (entries : AssetMapping) :
    ∀ (i0 : Nat) (ops : List SceneOp),
    replicateLoop h name nucleus grp kwargs entries i0 = (.ok (), ops) →
    ∀ (j : Nat) (asset : String) (m : AssetData),
      entries.get? j = some (asset, m) →
      ∃ eops, replicateEntry h name nucleus grp (i0 + j) asset m kwargs =
          (.ok (), eops) ∧ ∀ op ∈ eops, op ∈ ops := by
  induction entries with
  | nil =>
    intro i0 ops he j asset m hj
    simp at hj
  | cons entry rest ih =>
    intro i0 ops he j asset m hj
    obtain ⟨a0, m0⟩ := entry
    unfold replicateLoop at he
    rcases hent : replicateEntry h name nucleus grp i0 a0 m0 kwargs with
      ⟨r, eops⟩
    rw [hent] at he
    cases r with
    | ok u =>
      cases u
      rcases hloop : replicateLoop h name nucleus grp kwargs rest (i0 + 1)
        with ⟨r2, more⟩
      rw [hloop] at he
      injection he with h1 h2
      subst h2
      cases j with
      | zero =>
        simp only [List.get?_cons_zero, Option.some.injEq] at hj
        obtain ⟨rfl, rfl⟩ : a0 = asset ∧ m0 = m := by
          exact ⟨congrArg Prod.fst hj, congrArg Prod.snd hj⟩
        refine ⟨eops, by simpa using hent, ?_⟩
        intro op hop
        exact List.mem_append.mpr (Or.inl hop)
      | succ j' =>
        simp only [List.get?_cons_succ] at hj
        have h2ok : replicateLoop h name nucleus grp kwargs rest (i0 + 1) =
            (.ok (), more) := by
          rw [hloop, ← h1]
        obtain ⟨eops2, hent2, hsub⟩ := ih (i0 + 1) more h2ok j' asset m hj
        refine ⟨eops2, ?_, ?_⟩
        · rw [← hent2]
          congr 1
          omega
        · intro op hop
          exact List.mem_append.mpr (Or.inr (hsub op hop))
    | error e =>
      injection he with h1 h2
      exact absurd h1.symm (by simp)

/-- A successful replicate-loop iteration on an entry whose particle dict
is present performs the single-plug query, the single duplicate under the
formatted name, and the rewiring connect, all inside its trace. -/
theorem replicateEntry_ok_facts (h : Host) (name nucleus grp : String)
    (i : Nat) (asset : String) (m : AssetData)
    (kwargs : List (String × String)) (eops : List SceneOp)
    (ps : String) (v : Option (List String))
    (rest : List (String × Option (List String)))
    (hps : m.particle_system = some ((ps, v) :: rest))
    (he : replicateEntry h name nucleus grp i asset m kwargs =
      (.ok (), eops)) :
    ∃ d ns,
      (h.cacheArrayConnections (ps ++ ".cacheArrayData")).getD [] = [d] ∧
      h.duplicateResult ps (name ++ fmt3 i ++ "_PART") = [ns] ∧
      SceneOp.duplicate ps (name ++ fmt3 i ++ "_PART") ∈ eops ∧
      SceneOp.connectAttr d (ns ++ ".cacheArrayData") false ∈ eops := by
  unfold replicateEntry at he
  rw [hps] at he
  dsimp only at he
  rcases hca : (h.cacheArrayConnections (ps ++ ".cacheArrayData")).getD []
    with _ | ⟨d, _ | _⟩
  · rw [hca] at he
    exact absurd he (by simp)
  · rw [hca] at he
    rcases hdup : h.duplicateResult ps (name ++ fmt3 i ++ "_PART")
      with _ | ⟨ns, _ | _⟩
    · rw [hdup] at he
      exact absurd he (by simp)
    · rw [hdup] at he
      injection he with h1 h2
      subst h2
      exact ⟨d, ns, rfl, rfl, by simp, by simp⟩
    · rw [hdup] at he
      exact absurd he (by simp)
  · rw [hca] at he
    exact absurd he (by simp)

/-- Claim C10: replicate creates a nucleus node exactly when the
pre-flight cmds.ls query found none, otherwise it reuses the first
existing nucleus; every assignNSolver call of the run — one per entry of
a successful run — names that single nucleus (nucleusOf picks the first
query result or the created node). -/
theorem replicate_single_nucleus (h : Host) (name0 : String)
    (am : AssetMapping) (attrM : Option (List (String × String)))
    (r : Except PyErr Bool) (tr : List SceneOp)
    (hrun : replicate h name0 am attrM = (r, tr)) :
    (SceneOp.createNode "nucleus" ∈ tr ↔ h.lsNucleus = []) ∧
    (∀ s, SceneOp.melEval s ∈ tr → s = "assignNSolver " ++ nucleusOf h) ∧
    (r = .ok true → tr.countP (isAssignOp (nucleusOf h)) = am.length) := by
  unfold replicate at hrun
  dsimp only at hrun
  rcases hloop : replicateLoop h (name0 ++ "_") (nucleusOf h)
      (h.groupResult (h.uniqueName (name0 ++ "_") ++ "_GRP"))
      (attrM.getD []) am 0 with ⟨res, ops⟩
  rw [hloop] at hrun
  have hshape := replicateLoop_ops_shape h (name0 ++ "_") (nucleusOf h)
    (h.groupResult (h.uniqueName (name0 ++ "_") ++ "_GRP"))
    (attrM.getD []) am 0 res ops hloop
  have htr : tr = preOpsOf h ++
      [SceneOp.group (h.uniqueName (name0 ++ "_") ++ "_GRP")] ++ ops ∧
      (r = .ok true → res = .ok ()) := by
    cases res with
    | ok u =>
      cases u
      injection hrun with h1 h2
      exact ⟨h2.symm, fun _ => rfl⟩
    | error e =>
      injection hrun with h1 h2
      refine ⟨h2.symm, ?_⟩
      intro hok
      rw [← h1] at hok
      exact absurd hok (by simp)
  obtain ⟨htr, hres⟩ := htr
  subst htr
  refine ⟨?_, ?_, ?_⟩
  · cases hn : h.lsNucleus with
    | nil =>
      unfold preOpsOf
      rw [hn]
      simp
    | cons n t =>
      unfold preOpsOf
      rw [hn]
      constructor
      · intro hmem
        rcases List.mem_append.mp hmem with hmem | hmem
        · rcases List.mem_append.mp hmem with hmem | hmem
          · simp at hmem
          · simp at hmem
        · exact absurd hmem (hshape.2.1 "nucleus")
      · intro heq
        exact absurd heq (List.cons_ne_nil n t)
  · intro s hmem
    rcases List.mem_append.mp hmem with hmem | hmem
    · rcases List.mem_append.mp hmem with hmem | hmem
      · unfold preOpsOf at hmem
        rcases hn : h.lsNucleus with _ | ⟨n, t⟩ <;> rw [hn] at hmem <;>
          simp at hmem
      · simp at hmem
    · exact hshape.2.2.1 s hmem
  · intro hok
    rw [List.countP_append, List.countP_append,
      hshape.2.2.2 (hres hok)]
    have hpre : (preOpsOf h).countP (isAssignOp (nucleusOf h)) = 0 := by
      unfold preOpsOf
      rcases h.lsNucleus with _ | ⟨n, t⟩ <;> simp [isAssignOp]
    rw [hpre]
    simp [isAssignOp]

/-- The singleton asset mapping of the hostBase scene, as
map_houdini_asset builds it. -/
def amBase : AssetMapping :=
  [("houdiniA",
    { particle_system := some [("particleA", some ["radiusPP", "velocity"])],
      hierarchy := some ["meshA"] })]

/-- Claim C10 checked concretely: replicating amBase on the
nucleus-free hostBase scene creates the nucleus node. -/
theorem replicate_single_nucleus_witness :
    SceneOp.createNode "nucleus" ∈ (replicate hostBase "char" amBase none).2 ↔
      hostBase.lsNucleus = [] :=
  (replicate_single_nucleus hostBase "char" amBase none
    (replicate hostBase "char" amBase none).1
    (replicate hostBase "char" amBase none).2 rfl).1

/-- No disconnect edit anywhere in a trace. -/
def noDisconnect (tr : List SceneOp) : Prop :=
  ∀ a b, SceneOp.disconnectAttr a b ∉ tr

/-- Claim C1: on a successful replicate run, for every asset-mapping
entry whose particle_system data is present at enumerated position i,
the run (1) queried the cacheArrayData plug of the original nParticle
and found the single connected plug d, (2) duplicated that nParticle
producing exactly one duplicate, under the name name_iii_PART built from
the run name and the zero-padded index, and (3) rewired d into the
duplicate cacheArrayData attribute; the whole trace contains no
disconnect edit, so the original connections were queried, never
severed. -/
theorem replicate_copies_each_particle_system (h : Host) (name0 : String)
    (am : AssetMapping) (attrM : Option (List (String × String)))
    (tr : List SceneOp)
    (hrun : replicate h name0 am attrM = (.ok true, tr)) :
    noDisconnect tr ∧
    ∀ (i : Nat) (asset : String) (m : AssetData) (ps : String)
      (v : Option (List String))
      (rest : List (String × Option (List String))),
      am.get? i = some (asset, m) →
      m.particle_system = some ((ps, v) :: rest) →
      ∃ d ns,
        (h.cacheArrayConnections (ps ++ ".cacheArrayData")).getD [] = [d] ∧
        h.duplicateResult ps ((name0 ++ "_") ++ fmt3 i ++ "_PART") = [ns] ∧
        SceneOp.duplicate ps ((name0 ++ "_") ++ fmt3 i ++ "_PART") ∈ tr ∧
        SceneOp.connectAttr d (ns ++ ".cacheArrayData") false ∈ tr := by
  unfold replicate at hrun
  dsimp only at hrun
  rcases hloop : replicateLoop h (name0 ++ "_") (nucleusOf h)
      (h.groupResult (h.uniqueName (name0 ++ "_") ++ "_GRP"))
      (attrM.getD []) am 0 with ⟨res, ops⟩
  rw [hloop] at hrun
  have hok : res = .ok () ∧ tr = preOpsOf h ++
      [SceneOp.group (h.uniqueName (name0 ++ "_") ++ "_GRP")] ++ ops := by
    cases res with
    | ok u =>
      cases u
      injection hrun with h1 h2
      exact ⟨rfl, h2.symm⟩
    | error e =>
      injection hrun with h1 h2
      exact absurd h1 (by simp)
  obtain ⟨rfl, htr⟩ := hok
  subst htr
  have hshape := replicateLoop_ops_shape h (name0 ++ "_") (nucleusOf h)
    (h.groupResult (h.uniqueName (name0 ++ "_") ++ "_GRP"))
    (attrM.getD []) am 0 (.ok ()) ops hloop
  refine ⟨?_, ?_⟩
  · intro a b hmem
    rcases List.mem_append.mp hmem with hmem | hmem
    · rcases List.mem_append.mp hmem with hmem | hmem
      · unfold preOpsOf at hmem
        rcases hn : h.lsNucleus with _ | ⟨n, t⟩ <;> rw [hn] at hmem <;>
          simp at hmem
      · simp at hmem
    · exact hshape.1 a b hmem
  · intro i asset m ps v rest hget hps
    obtain ⟨eops, hent, hsub⟩ := replicateLoop_ok_entries h (name0 ++ "_")
      (nucleusOf h)
      (h.groupResult (h.uniqueName (name0 ++ "_") ++ "_GRP"))
      (attrM.getD []) am 0 ops hloop i asset m hget
    rw [Nat.zero_add] at hent
    obtain ⟨d, ns, hca, hdup, hmem1, hmem2⟩ := replicateEntry_ok_facts h
      (name0 ++ "_") (nucleusOf h)
      (h.groupResult (h.uniqueName (name0 ++ "_") ++ "_GRP"))
      i asset m (attrM.getD []) eops ps v rest hps hent
    refine ⟨d, ns, hca, hdup, ?_, ?_⟩
    · exact List.mem_append.mpr (Or.inr (hsub _ hmem1))
    · exact List.mem_append.mpr (Or.inr (hsub _ hmem2))

/-- Claim C1 checked concretely: the successful amBase run performs no
disconnect. -/
theorem replicate_copies_each_particle_system_witness :
    noDisconnect (replicate hostBase "char" amBase none).2 :=
  (replicate_copies_each_particle_system hostBase "char" amBase none
    (replicate hostBase "char" amBase none).2 rfl).1
